import Mathlib

/-!
Verification development for the HazardSafe-KG platform.

Shallow embedding of the core Python modules:
  - validation/rules.py        (ValidationEngine, ValidationRules)
  - quality/metrics.py         (QualityMetrics)
  - kg/database.py, kg/services.py (Neo4jDatabase, KnowledgeGraphService)
  - ontology/ontology_to_kg_pipeline.py (OntologyToKGPipeline)
  - nlp_rag/document_to_kg_pipeline.py  (DocumentToKGPipeline)

Python floats are modelled as rationals (no float rounding matters in any
statement proved here), pandas cells as `Option PyVal` with `none` for
NaN/null, and Python dicts as association lists.  Error-message text is
abridged where the source interpolates values and no statement depends on
the exact text (quote characters are omitted from messages).
-/

namespace HazardSafe

/-- A scalar Python value as it occurs in pandas cells, record dicts and
node properties: a string or a number (int/float, modelled as `ℚ`). -/
inductive PyVal where
  | str (s : String)
  | num (q : ℚ)
deriving DecidableEq, Repr

/-- A pandas cell: `none` models NaN / missing. -/
abbrev Cell := Option PyVal

/-- Python truthiness of a scalar value: empty string and 0 are falsy. -/
def PyVal.truthy : PyVal → Bool
  | .str s => s != ""
  | .num q => q ≠ 0

/-- The non-null values of a pandas series (`series.notna()` filtering). -/
def nonNull (series : List Cell) : List PyVal :=
  series.filterMap id

/-- Digits to a natural number. -/
def digitsToNat (l : List Char) : ℕ :=
  l.foldl (fun a c => a * 10 + (c.toNat - 48)) 0

/-- Model of Python / pandas numeric parsing of a string
(`pd.to_numeric`, `float(...)`): optional sign, then digits with at most
one decimal point and at least one digit. -/
def parseNum (s : String) : Option ℚ :=
  let cs := s.data
  let sgn : ℚ := if cs.head? = some '-' then -1 else 1
  let cs := if cs.head? = some '-' ∨ cs.head? = some '+' then cs.tail else cs
  let intp := cs.takeWhile Char.isDigit
  let rest := cs.dropWhile Char.isDigit
  match rest with
  | [] => if intp.isEmpty then none else some (sgn * (digitsToNat intp : ℚ))
  | '.' :: frac =>
      if frac.all Char.isDigit && !(intp.isEmpty && frac.isEmpty) then
        some (sgn * ((digitsToNat intp : ℚ) +
          (digitsToNat frac : ℚ) / ((10 : ℚ) ^ frac.length)))
      else none
  | _ => none

/-- `pd.to_numeric(·, errors=coerce)` on one cell value: numbers pass
through, strings are parsed, anything unparsable becomes NaN (`none`). -/
def pdToNumeric : PyVal → Option ℚ
  | .num q => some q
  | .str s => parseNum s

/-- Model of the external `pd.to_datetime(·, errors=coerce)` on one value:
numbers parse (epoch-style), strings parse iff they look like an ISO date
`dddd-dd-dd`.  No claim proved here depends on the exact date grammar. -/
def pdToDatetimeOk : PyVal → Bool
  | .num _ => true
  | .str s =>
      match s.data with
      | [a, b, c, d, '-', e, f, '-', g, h] =>
          [a, b, c, d, e, f, g, h].all Char.isDigit
      | _ => false

/-- A pandas DataFrame: named columns of equal length. -/
structure DataFrame where
  cols : List (String × List Cell)
deriving Repr

/-- `df.columns`. -/
def DataFrame.columns (df : DataFrame) : List String :=
  df.cols.map Prod.fst

/-- Column access `df[field]` (empty series when absent). -/
def DataFrame.getcol (df : DataFrame) (field : String) : List Cell :=
  ((df.cols.find? (fun c => c.1 == field)).map Prod.snd).getD []

/-- `len(df)`: the number of rows (length of the first column). -/
def DataFrame.nrows (df : DataFrame) : ℕ :=
  match df.cols with
  | [] => 0
  | c :: _ => c.2.length

/-! ## validation/rules.py — ValidationEngine -/

/-- One entry of the `_load_validation_rules` dictionary.  The four
vocabulary lists are `Option`s because only some entity kinds carry them
(`hazard_classes` for substances, `materials` for containers, ...), and
the Python code tests key membership on the rules dict. -/
structure VRules where
  required_fields : List String
  field_types : List (String × String)
  hazard_classes : Option (List String) := none
  materials : Option (List String) := none
  test_types : Option (List String) := none
  risk_levels : Option (List String) := none
  constraints : List (String × ℚ × ℚ)
deriving Repr

/-- The Python dict keys of a rules entry, in literal order; used by the
`if field in rules` test inside `validate_csv_structure`. -/
def VRules.dictKeys (r : VRules) : List String :=
  ["required_fields", "field_types"]
  ++ (if r.hazard_classes.isSome then ["hazard_classes"] else [])
  ++ (if r.materials.isSome then ["materials"] else [])
  ++ (if r.test_types.isSome then ["test_types"] else [])
  ++ (if r.risk_levels.isSome then ["risk_levels"] else [])
  ++ ["constraints"]

/-- `_load_validation_rules()["substances"]`. -/
def substancesRules : VRules where
  required_fields := ["name", "hazard_class"]
  field_types :=
    [("name", "string"), ("chemical_formula", "string"),
     ("molecular_weight", "float"), ("hazard_class", "string"),
     ("flash_point", "string_or_float"), ("boiling_point", "float"),
     ("melting_point", "float"), ("density", "float")]
  hazard_classes := some
    ["flammable", "toxic", "corrosive", "explosive",
     "oxidizing", "environmental", "health"]
  constraints :=
    [("molecular_weight", 0, 10000), ("boiling_point", -273, 5000),
     ("melting_point", -273, 5000), ("density", 0, 100)]

/-- `_load_validation_rules()["containers"]`. -/
def containersRules : VRules where
  required_fields := ["name", "material", "capacity"]
  field_types :=
    [("name", "string"), ("material", "string"), ("capacity", "float"),
     ("unit", "string"), ("pressure_rating", "float"),
     ("temperature_rating", "float"), ("manufacturer", "string"),
     ("model", "string")]
  materials := some
    ["stainless_steel", "glass", "plastic", "aluminum",
     "carbon_steel", "titanium", "ceramic"]
  constraints :=
    [("capacity", 0, 100000), ("pressure_rating", 0, 10000),
     ("temperature_rating", -200, 1000)]

/-- `_load_validation_rules()["tests"]`. -/
def testsRules : VRules where
  required_fields := ["name", "test_type"]
  field_types :=
    [("name", "string"), ("test_type", "string"), ("description", "string"),
     ("standard", "string"), ("method", "string"), ("duration", "float"),
     ("temperature", "float"), ("pressure", "float")]
  test_types := some
    ["pressure_test", "leak_test", "material_compatibility",
     "temperature_test", "corrosion_test", "impact_test"]
  constraints :=
    [("duration", 0, 10000), ("temperature", -200, 1000),
     ("pressure", 0, 10000)]

/-- `_load_validation_rules()["assessments"]`. -/
def assessmentsRules : VRules where
  required_fields := ["title", "substance_id", "risk_level"]
  field_types :=
    [("title", "string"), ("substance_id", "string"),
     ("risk_level", "string"), ("hazards", "string"),
     ("mitigation", "string"), ("ppe_required", "string"),
     ("storage_requirements", "string"), ("emergency_procedures", "string"),
     ("assessor", "string"), ("date", "date")]
  risk_levels := some ["low", "medium", "high", "critical"]
  constraints := []

/-- `self.validation_rules`. -/
def validationRules : List (String × VRules) :=
  [("substances", substancesRules), ("containers", containersRules),
   ("tests", testsRules), ("assessments", assessmentsRules)]

/-- `_validate_field_type(series, expected_type, field)`. -/
def validate_field_type (series : List Cell) (expectedType field : String) :
    List String :=
  if expectedType = "string" then
    if (nonNull series).any (fun v => match v with
        | .str _ => false
        | _ => true) then
      ["Field " ++ field ++ " contains non-string values"]
    else []
  else if expectedType = "float" then
    if (nonNull series).any (fun v => (pdToNumeric v).isNone) then
      ["Field " ++ field ++ " contains non-numeric values"]
    else []
  else if expectedType = "string_or_float" then
    -- every `PyVal` is a string or a number, as is every non-null pandas
    -- cell in the source; the isinstance test never fails
    if (nonNull series).any (fun v => match v with
        | .str _ => false
        | .num _ => false) then
      ["Field " ++ field ++ " contains invalid values (must be string or number)"]
    else []
  else if expectedType = "date" then
    if (nonNull series).any (fun v => !pdToDatetimeOk v) then
      ["Field " ++ field ++ " contains invalid date values"]
    else []
  else []

/-- `_validate_constraints(series, constraints, field)`: compares the
coerced numeric series against min and max (NaNs compare false). -/
def validate_constraints (series : List Cell) (mn mx : ℚ) (field : String) :
    List String :=
  let nums := (nonNull series).filterMap pdToNumeric
  (if nums.any (fun q => q < mn) then
    ["Field " ++ field ++ " contains values below minimum"] else [])
  ++ (if nums.any (fun q => q > mx) then
    ["Field " ++ field ++ " contains values above maximum"] else [])

/-- Is a cell value in a string vocabulary (`series.isin(vocab)`)? -/
def valInVocab (vocab : List String) : PyVal → Bool
  | .str s => vocab.contains s
  | .num _ => false

/-- `_validate_field_values(series, rules, field)`. -/
def validate_field_values (series : List Cell) (rules : VRules)
    (field : String) : List String :=
  if field = "hazard_class" ∧ rules.hazard_classes.isSome then
    let vocab := rules.hazard_classes.getD []
    if (nonNull series).any (fun v => !valInVocab vocab v) then
      ["Field " ++ field ++ " contains invalid hazard classes"]
    else []
  else if field = "material" ∧ rules.materials.isSome then
    let vocab := rules.materials.getD []
    if (nonNull series).any (fun v => !valInVocab vocab v) then
      ["Field " ++ field ++ " contains invalid materials"]
    else []
  else if field = "test_type" ∧ rules.test_types.isSome then
    let vocab := rules.test_types.getD []
    if (nonNull series).any (fun v => !valInVocab vocab v) then
      ["Field " ++ field ++ " contains invalid test types"]
    else []
  else if field = "risk_level" ∧ rules.risk_levels.isSome then
    let vocab := rules.risk_levels.getD []
    if (nonNull series).any (fun v => !valInVocab vocab v) then
      ["Field " ++ field ++ " contains invalid risk levels"]
    else []
  else []

/-- Cell equality as pandas `duplicated` sees it (NaN matches NaN). -/
def cellBeq : Cell → Cell → Bool
  | none, none => true
  | some (.str a), some (.str b) => a == b
  | some (.num a), some (.num b) => a == b
  | _, _ => false

/-- `series.duplicated()` survivors: every value equal to an earlier one. -/
def duplicatedVals (series : List Cell) : List Cell :=
  (go series []).reverse
where
  go : List Cell → List Cell → List Cell
    | [], _ => []
    | c :: rest, seen =>
        if seen.any (cellBeq c) then c :: go rest (c :: seen)
        else go rest (c :: seen)

/-- Substring test on character lists (for the `"row" in e` filter). -/
def charsInfix (p l : List Char) : Bool :=
  (List.range (l.length + 1)).any fun i => (l.drop i).take p.length == p

/-- Result record of `validate_csv_structure`. -/
structure CSVResult where
  valid : Bool
  errors : List String
  warnings : List String
  total_rows : ℕ
  valid_rows : ℕ
deriving Repr

/-- `validate_csv_structure(df, data_type)`.  Mirrors the source: missing
required columns, then per present typed column the type check, the
constraint check and — only when the field name is a key of the rules
dict, which never holds — the vocabulary check; duplicate names become a
warning; `valid` is `len(errors) == 0`.  The unknown-data-type return in
the source carries only `valid` and `errors`; the remaining fields are
zeroed here. -/
def validate_csv_structure (df : DataFrame) (dataType : String) : CSVResult :=
  match validationRules.lookup dataType with
  | none =>
      { valid := false, errors := ["Unknown data type: " ++ dataType],
        warnings := [], total_rows := 0, valid_rows := 0 }
  | some rules =>
      let errsRequired := rules.required_fields.filterMap fun f =>
        if df.columns.contains f then none
        else some ("Missing required field: " ++ f)
      let errsFields := rules.field_types.flatMap fun ft =>
        let field := ft.1
        if df.columns.contains field then
          validate_field_type (df.getcol field) ft.2 field
          ++ (match rules.constraints.lookup field with
              | some (mn, mx) => validate_constraints (df.getcol field) mn mx field
              | none => [])
          ++ (if rules.dictKeys.contains field then
                validate_field_values (df.getcol field) rules field
              else [])
        else []
      let errors := errsRequired ++ errsFields
      let warnings :=
        if df.columns.contains "name" then
          if (duplicatedVals (df.getcol "name")).isEmpty then []
          else ["Duplicate names found"]
        else []
      { valid := errors.isEmpty
        errors := errors
        warnings := warnings
        total_rows := df.nrows
        valid_rows := df.nrows -
          (errors.filter (fun e => charsInfix "row".data e.data)).length }

/-- Result record of `validate_safety_rules` / `validate_compatibility`
style checks. -/
structure SafetyResult where
  valid : Bool
  errors : List String
  warnings : List String
deriving Repr, DecidableEq

/-- Python `<` between a record value and an int: numbers compare,
a string raises `TypeError` (message abridged). -/
def pyLt (v : PyVal) (k : ℚ) : Except String Bool :=
  match v with
  | .num q => .ok (q < k)
  | .str _ => .error "comparison not supported between str and int"

/-- Python `>` between a record value and an int, as `pyLt`. -/
def pyGt (v : PyVal) (k : ℚ) : Except String Bool :=
  match v with
  | .num q => .ok (q > k)
  | .str _ => .error "comparison not supported between str and int"

/-- `data.get(key, default)` on a record dict. -/
def pyGetD (data : List (String × PyVal)) (key : String) (dflt : PyVal) :
    PyVal :=
  (data.lookup key).getD dflt

/-- Truthiness of `data.get(key)` (missing key is `None`, falsy). -/
def pyTruthy (o : Option PyVal) : Bool :=
  match o with
  | some v => v.truthy
  | none => false

/-- `validate_safety_rules(data, data_type)`.  The checks run inside the
`try` block in source order with Python short-circuit evaluation; a
`TypeError` from a comparison is caught and turned into the
`Safety validation error` result (whose dict carries no warnings key,
modelled as an empty list). -/
def validate_safety_rules (data : List (String × PyVal))
    (dataType : String) : SafetyResult :=
  let body : Except String (List String × List String) :=
    if dataType = "substance" then do
      let hz := data.lookup "hazard_class"
      let c1 ← if hz = some (.str "flammable") then
          pyLt (pyGetD data "flash_point" (.num 0)) 23
        else pure false
      let w1 := if c1 then ["Highly flammable substance detected"] else []
      let c2 ← if hz = some (.str "toxic") then
          pyLt (pyGetD data "molecular_weight" (.num 0)) 100
        else pure false
      let w2 := if c2 then
        ["Low molecular weight toxic substance - handle with extreme care"]
        else []
      let w3 := if hz = some (.str "corrosive") then
        ["Corrosive substance - ensure proper PPE and containment"] else []
      pure ([], w1 ++ w2 ++ w3)
    else if dataType = "container" then do
      let c1 ← if data.lookup "material" = some (.str "plastic") then
          pyGt (pyGetD data "pressure_rating" (.num 0)) 100
        else pure false
      let w1 := if c1 then
        ["High pressure in plastic container - verify material compatibility"]
        else []
      let t1 ← pyLt (pyGetD data "temperature_rating" (.num 0)) (-50)
      let t2 ← if t1 then pure true
        else pyGt (pyGetD data "temperature_rating" (.num 0)) 200
      let w2 := if t2 then
        ["Extreme temperature conditions - verify container specifications"]
        else []
      pure ([], w1 ++ w2)
    else if dataType = "test" then do
      let c1 ← pyGt (pyGetD data "pressure" (.num 0)) 1000
      let w1 := if c1 then
        ["High pressure test - ensure proper safety measures"] else []
      let t1 ← pyLt (pyGetD data "temperature" (.num 0)) (-100)
      let t2 ← if t1 then pure true
        else pyGt (pyGetD data "temperature" (.num 0)) 300
      let w2 := if t2 then
        ["Extreme temperature test - ensure proper safety measures"] else []
      pure ([], w1 ++ w2)
    else if dataType = "assessment" then
      let e1 := if data.lookup "risk_level" = some (.str "high") ∧
          !pyTruthy (data.lookup "emergency_procedures") then
        ["High risk assessment missing emergency procedures"] else []
      let e2 := if data.lookup "risk_level" = some (.str "critical") ∧
          !pyTruthy (data.lookup "ppe_required") then
        ["Critical risk assessment missing PPE requirements"] else []
      pure (e1 ++ e2, [])
    else pure ([], [])
  match body with
  | .ok (errors, warnings) =>
      { valid := errors.isEmpty, errors := errors, warnings := warnings }
  | .error e =>
      { valid := false, errors := ["Safety validation error: " ++ e],
        warnings := [] }

/-- The substance fields consumed by `validate_compatibility`.  The data
model (§3) types `boiling_point` as a float, so the value is numeric when
present; a missing key defaults to `""` / `0` via `dict.get`. -/
structure SubstanceRec where
  hazard_class : Option String := none
  boiling_point : Option ℚ := none
deriving Repr

/-- The container fields consumed by `validate_compatibility`. -/
structure ContainerRec where
  material : Option String := none
  temperature_rating : Option ℚ := none
  pressure_rating : Option ℚ := none
deriving Repr

/-- The fixed incompatibility table of `validate_compatibility` (and of
`get_compatible_containers` in kg/services.py). -/
def incompatibilities : List (String × List String) :=
  [("corrosive", ["aluminum", "carbon_steel"]),
   ("oxidizing", ["plastic"]),
   ("flammable", ["plastic"])]

/-- Result record of `validate_compatibility`. -/
structure CompatResult where
  compatible : Bool
  errors : List String
  warnings : List String
deriving Repr, DecidableEq

/-- `validate_compatibility(substance_data, container_data)`. -/
def validate_compatibility (s : SubstanceRec) (c : ContainerRec) :
    CompatResult :=
  let substance_hazard := s.hazard_class.getD ""
  let container_material := c.material.getD ""
  let errors :=
    match incompatibilities.lookup substance_hazard with
    | some mats =>
        if mats.contains container_material then
          ["Incompatible: " ++ substance_hazard ++ " substance with " ++
            container_material ++ " container"]
        else []
    | none => []
  let warnings :=
    (if s.boiling_point.getD 0 > c.temperature_rating.getD 0 then
      ["Substance boiling point exceeds container rating"] else [])
    ++ (if c.pressure_rating.getD 0 < 1 then
      ["Container pressure rating below atmospheric pressure"] else [])
  { compatible := errors.isEmpty, errors := errors, warnings := warnings }

/-! ## validation/rules.py — class ValidationRules (static helpers) -/

/-- The character whitelist of `is_valid_chemical_name` (letters, digits,
brackets, punctuation, space). -/
def chemNameAllowedChars : List Char :=
  "abcdefghijklmnopqrstuvwxyzABCDEFGHIJKLMNOPQRSTUVWXYZ0123456789()[]\x7b\x7d.,-_ ".data

/-- `ValidationRules.is_valid_chemical_name(name)`. -/
def is_valid_chemical_name (name : String) : Bool :=
  if name.isEmpty then false
  else
    let name := name.trim
    if name.length < 1 then false
    else if !name.data.any Char.isAlpha then false
    else if !name.data.all (fun ch => chemNameAllowedChars.contains ch) then
      false
    else true

/-- `ValidationRules.is_valid_cas_number(cas_number)`: the regex
`^\d{1,7}-\d{2}-\d$`. -/
def is_valid_cas_number (cas : String) : Bool :=
  let cs := cas.data
  let d1 := cs.takeWhile Char.isDigit
  match cs.drop d1.length with
  | '-' :: r1 =>
      let d2 := r1.takeWhile Char.isDigit
      (match r1.drop d2.length with
       | '-' :: r2 =>
           decide (1 ≤ d1.length) && decide (d1.length ≤ 7) &&
           decide (d2.length = 2) &&
           (match r2 with
            | [d] => d.isDigit
            | _ => false)
       | _ => false)
  | _ => false

/-- The twelve-value vocabulary of `ValidationRules.is_valid_hazard_class`
(distinct from the seven-value list in `_load_validation_rules`). -/
def validHazardClassList : List String :=
  ["flammable", "toxic", "corrosive", "explosive",
   "oxidizing", "environmental", "health", "irritant",
   "sensitizer", "carcinogen", "mutagen", "reproductive_toxin"]

/-- `ValidationRules.is_valid_hazard_class(hazard_class)`. -/
def is_valid_hazard_class (hazard_class : String) : Bool :=
  validHazardClassList.contains hazard_class.toLower

/-! ## quality/metrics.py — QualityMetrics -/

/-- Mean of a list of rationals (`np.mean`; the empty case is only ever
guarded in source, modelled as 0). -/
def listMean (l : List ℚ) : ℚ :=
  if l.isEmpty then 0 else l.sum / l.length

/-- A pandas column dtype is numeric iff every non-null cell is a number
(an all-null column reads as float64, hence numeric). -/
def isNumericCol (cells : List Cell) : Bool :=
  (nonNull cells).all fun v =>
    match v with
    | .num _ => true
    | .str _ => false

/-- `calculate_completeness(data)[overall_completeness]`:
non-null cells over `data.size`. -/
def calculate_completeness (df : DataFrame) : ℚ :=
  let totalCells := df.nrows * df.cols.length
  let nonNullCells := (df.cols.map (fun c => (nonNull c.2).length)).sum
  if totalCells > 0 then (nonNullCells : ℚ) / totalCells else 0

/-- Strict pandas `==` on cells: NaN compares unequal to everything. -/
def cellEqNoNaN : Cell → Cell → Bool
  | some (.str a), some (.str b) => a == b
  | some (.num a), some (.num b) => a == b
  | _, _ => false

/-- `_validate_data_formats(data)`: over object-dtype columns, the first
100 non-null values each count one check; an empty-after-strip string is
a format error. -/
def validate_data_formats (df : DataFrame) : ℚ :=
  let tally := df.cols.foldl
    (fun acc c =>
      if isNumericCol c.2 then acc
      else
        let sample := (nonNull c.2).take 100
        let errs := (sample.filter fun v =>
          match v with
          | .str s => s.trim.isEmpty
          | .num _ => false).length
        (acc.1 + errs, acc.2 + sample.length))
    ((0 : ℕ), (0 : ℕ))
  if tally.2 > 0 then 1 - (tally.1 : ℚ) / tally.2 else 1

/-- `calculate_accuracy(data, reference_data)[overall_accuracy]`. -/
def calculate_accuracy (df : DataFrame) (ref : Option DataFrame) : ℚ :=
  match ref with
  | some rdf =>
      if df.nrows = rdf.nrows ∧ df.cols.length = rdf.cols.length then
        let scores := df.columns.filterMap fun col =>
          if rdf.columns.contains col then
            let nMatches := ((df.getcol col).zip (rdf.getcol col)).countP
              fun p => cellEqNoNaN p.1 p.2
            some (if df.nrows > 0 then (nMatches : ℚ) / df.nrows else 0)
          else none
        if scores.isEmpty then 0 else listMean scores
      else validate_data_formats df
  | none => validate_data_formats df

/-- Constructor tag used by the mixed-type check (`type(value)`). -/
def PyVal.isStr : PyVal → Bool
  | .str _ => true
  | .num _ => false

/-- `_check_type_consistency(data)`: over object-dtype columns compare
each of the first 100 non-null values against the runtime type of the
first one. -/
def check_type_consistency (df : DataFrame) : ℚ :=
  let tally := df.cols.foldl
    (fun acc c =>
      if isNumericCol c.2 then acc
      else
        let sample := (nonNull c.2).take 100
        match sample with
        | [] => acc
        | v0 :: _ =>
            let errs := (sample.filter fun v => v.isStr != v0.isStr).length
            (acc.1 + errs, acc.2 + sample.length))
    ((0 : ℕ), (0 : ℕ))
  if tally.2 > 0 then 1 - (tally.1 : ℚ) / tally.2 else 1

/-- Sample variance with ddof 1 (pandas `.std()` squared); only consulted
when the column has at least two values. -/
def sampleVar (vals : List ℚ) : ℚ :=
  let n := vals.length
  let m := listMean vals
  if n ≥ 2 then (vals.map fun v => (v - m) ^ 2).sum / (n - 1 : ℕ) else 0

/-- `_check_value_ranges(data)`: over numeric columns count values beyond
three standard deviations.  `v < m − 3σ ∨ v > m + 3σ` is expressed
equivalently (for σ > 0) as `(v − m)² > 9·σ²`, avoiding the square root;
a single-value column has NaN std and is skipped, as is any column with
zero variance. -/
def check_value_ranges (df : DataFrame) : ℚ :=
  let tally := df.cols.foldl
    (fun acc c =>
      if isNumericCol c.2 then
        let vals := (nonNull c.2).filterMap fun v =>
          match v with
          | .num q => some q
          | .str _ => none
        if vals.length = 0 then acc
        else
          let m := listMean vals
          let var := sampleVar vals
          if vals.length ≥ 2 ∧ var > 0 then
            let errs := (vals.filter fun v => (v - m) ^ 2 > 9 * var).length
            (acc.1 + errs, acc.2 + vals.length)
          else acc
      else acc)
    ((0 : ℕ), (0 : ℕ))
  if tally.2 > 0 then 1 - (tally.1 : ℚ) / tally.2 else 1

/-- `calculate_consistency(data)[overall_consistency]`. -/
def calculate_consistency (df : DataFrame) : ℚ :=
  (check_type_consistency df + check_value_ranges df) / 2

/-- `calculate_timeliness(data, timestamp_col)[timeliness_score]`.  The
external datetime parsing and the current time are modelled by rational
hour stamps: a cell parses to an age `now − t`. -/
def calculate_timeliness (df : DataFrame) (tsCol : Option String)
    (now : ℚ) : ℚ :=
  let colPresent :=
    match tsCol with
    | some c => df.columns.contains c
    | none => false
  if colPresent then
    let valid := (nonNull (df.getcol (tsCol.getD ""))).filterMap pdToNumeric
    if valid.length > 0 then
      ((valid.filter fun t => now - t ≤ 24).length : ℚ) / valid.length
    else 0
  else 8 / 10

/-- The rows of a DataFrame (for `drop_duplicates`). -/
def DataFrame.rows (df : DataFrame) : List (List Cell) :=
  (List.range df.nrows).map fun i => df.cols.map fun c => c.2.getD i none

/-- `calculate_uniqueness(data)[overall_uniqueness]`:
`drop_duplicates` row count over total rows. -/
def calculate_uniqueness (df : DataFrame) : ℚ :=
  if df.nrows > 0 then (df.rows.dedup.length : ℚ) / df.nrows else 0

/-- `_get_quality_grade(score)`. -/
def get_quality_grade (score : ℚ) : String :=
  if score ≥ 9 / 10 then "A"
  else if score ≥ 8 / 10 then "B"
  else if score ≥ 7 / 10 then "C"
  else if score ≥ 6 / 10 then "D"
  else "F"

/-- The weight dictionary of `calculate_overall_quality_score`. -/
def qualityWeights : List (String × ℚ) :=
  [("completeness", 25 / 100), ("accuracy", 30 / 100),
   ("consistency", 20 / 100), ("timeliness", 15 / 100),
   ("uniqueness", 10 / 100)]

/-- Result record of `calculate_overall_quality_score` (the five
dimension scores the weighting loop extracts, the overall score and the
grade). -/
structure QualityReport where
  completeness : ℚ
  accuracy : ℚ
  consistency : ℚ
  timeliness : ℚ
  uniqueness : ℚ
  overall_score : ℚ
  quality_grade : String
deriving Repr

/-- `calculate_overall_quality_score(data, **kwargs)`: computes the five
dimension scores, then folds the weight dictionary, dispatching on the
metric name exactly as the source loop does. -/
def calculate_overall_quality_score (df : DataFrame)
    (tsCol : Option String) (now : ℚ) (ref : Option DataFrame) :
    QualityReport :=
  let comp := calculate_completeness df
  let acc := calculate_accuracy df ref
  let cons := calculate_consistency df
  let tim := calculate_timeliness df tsCol now
  let uniq := calculate_uniqueness df
  let dimScore : String → ℚ := fun nm =>
    if nm = "completeness" then comp
    else if nm = "accuracy" then acc
    else if nm = "consistency" then cons
    else if nm = "timeliness" then tim
    else if nm = "uniqueness" then uniq
    else 0
  let overall := qualityWeights.foldl
    (fun s w => s + dimScore w.1 * w.2) 0
  { completeness := comp, accuracy := acc, consistency := cons,
    timeliness := tim, uniqueness := uniq, overall_score := overall,
    quality_grade := get_quality_grade overall }

/-! ## kg/database.py and kg/services.py — graph store

The Neo4j backend itself is an external collaborator (§1 of the spec).
Modelled from the spec: §4.2 fixes its contract — `CREATE` adds a node,
the per-label unique-id constraints installed by `initialize_schema`
reject a second node with an existing id with `Conflict`, and the edge
`MATCH ... CREATE` pairs every node whose id property matches. -/

/-- A relationship property value: a scalar, or a whole dict — the
ontology pipeline step 5 passes the RDF-extracted properties dict where
the service signature expects the scalar `quantity`. -/
inductive PropVal where
  | v (x : PyVal)
  | map (d : List (String × PyVal))
deriving DecidableEq, Repr

/-- A property-graph node. -/
structure KGNode where
  labels : List String
  props : List (String × PyVal)
deriving DecidableEq, Repr

/-- The `id` property of a node (when present and a string). -/
def KGNode.nodeId (n : KGNode) : Option String :=
  match n.props.lookup "id" with
  | some (.str s) => some s
  | _ => none

/-- A property-graph edge (endpoints recorded by their id property). -/
structure KGEdge where
  srcId : String
  dstId : String
  relType : String
  props : List (String × PropVal)
deriving DecidableEq, Repr

/-- The graph-store state. -/
structure KGraph where
  nodes : List KGNode
  edges : List KGEdge
deriving DecidableEq, Repr

/-- The empty graph. -/
def emptyGraph : KGraph := ⟨[], []⟩

/-- The labels given unique-id constraints by `initialize_schema`. -/
def constrainedLabels : List String :=
  ["HazardousSubstance", "Container", "SafetyTest", "RiskAssessment"]

/-- Python dict assignment `d[k] = v`: replace in place, or append. -/
def dictSet (d : List (String × PyVal)) (k : String) (v : PyVal) :
    List (String × PyVal) :=
  if d.any (fun p => p.1 == k) then
    d.map fun p => if p.1 == k then (k, v) else p
  else d ++ [(k, v)]

/-- `Neo4jDatabase.create_node(labels, properties)`: a plain Cypher
`CREATE` returning `n.id`.  Modelled from the spec: under the unique-id
constraint a duplicate (label, id) raises `Conflict` (§4.2) and leaves
the store unchanged; otherwise the node is added and its id property
returned. -/
def create_node (g : KGraph) (labels : List String)
    (props : List (String × PyVal)) :
    Except String (KGraph × Option String) :=
  let newId : Option String :=
    match props.lookup "id" with
    | some (.str s) => some s
    | _ => none
  let conflict := g.nodes.any fun n =>
    labels.any fun l =>
      constrainedLabels.contains l && n.labels.contains l &&
        (newId.isSome && n.nodeId == newId)
  if conflict then .error "Conflict"
  else .ok ({ g with nodes := g.nodes ++ [⟨labels, props⟩] }, newId)

/-- `Neo4jDatabase.create_relationship(start, end, type, properties)`:
`MATCH (a), (b) WHERE a.id = start AND b.id = end CREATE (a)-[r]->(b)`
creates one edge per matched pair of nodes and reports
`len(result) > 0`. -/
def create_relationship (g : KGraph) (startId endId relType : String)
    (props : List (String × PropVal)) : KGraph × Bool :=
  let srcs := g.nodes.countP fun n => n.nodeId == some startId
  let dsts := g.nodes.countP fun n => n.nodeId == some endId
  let k := srcs * dsts
  ({ g with edges := g.edges ++
      List.replicate k ⟨startId, endId, relType, props⟩ },
   decide (0 < k))

/-- Deterministic stand-in for `str(uuid.uuid4())`: the n-th fresh id. -/
def uuidStr (n : ℕ) : String := "uuid-" ++ toString n

/-- A service-layer result (`success` + `message`, and the id key the
source adds on success). -/
structure SvcResult where
  success : Bool
  message : String
  returned_id : Option String := none
deriving DecidableEq, Repr

/-- Common body of `create_substance` / `create_container` /
`create_test` / `create_assessment` in KnowledgeGraphService: take the
given id or a fresh uuid4 (the uuid4 argument of `dict.get` is evaluated
either way, so the counter always advances), stamp `created_at` /
`updated_at`, then `create_node`; exceptions become a failure result with
the store unchanged. -/
def create_entity_node (label : String) (g : KGraph) (cnt : ℕ)
    (now : String) (data : List (String × PyVal)) :
    KGraph × ℕ × SvcResult :=
  let eid :=
    match data.lookup "id" with
    | some (.str s) => s
    | _ => uuidStr cnt
  let d1 := dictSet data "id" (.str eid)
  let d2 := dictSet d1 "created_at" (.str now)
  let d3 := dictSet d2 "updated_at" (.str now)
  match create_node g [label] d3 with
  | .ok (g1, some nid) =>
      (g1, cnt + 1,
       { success := true, message := "created", returned_id := some nid })
  | .ok (g1, none) =>
      (g1, cnt + 1, { success := false, message := "Failed to create node" })
  | .error _ =>
      (g, cnt + 1, { success := false, message := "Error creating entity" })

/-- `KnowledgeGraphService.create_substance(substance_data)`. -/
def create_substance (g : KGraph) (cnt : ℕ) (now : String)
    (data : List (String × PyVal)) : KGraph × ℕ × SvcResult :=
  create_entity_node "HazardousSubstance" g cnt now data

/-- `KnowledgeGraphService.create_container(container_data)`. -/
def create_container (g : KGraph) (cnt : ℕ) (now : String)
    (data : List (String × PyVal)) : KGraph × ℕ × SvcResult :=
  create_entity_node "Container" g cnt now data

/-- `KnowledgeGraphService.create_test(test_data)`. -/
def create_test (g : KGraph) (cnt : ℕ) (now : String)
    (data : List (String × PyVal)) : KGraph × ℕ × SvcResult :=
  create_entity_node "SafetyTest" g cnt now data

/-- `KnowledgeGraphService.create_assessment(assessment_data)`. -/
def create_assessment (g : KGraph) (cnt : ℕ) (now : String)
    (data : List (String × PyVal)) : KGraph × ℕ × SvcResult :=
  create_entity_node "RiskAssessment" g cnt now data

/-- `KnowledgeGraphService.create_storage_relationship(substance_id,
container_id, quantity)`: builds the STORED_IN properties and calls
`create_relationship`; no compatibility logic appears in this path. -/
def create_storage_relationship (g : KGraph) (now : String)
    (substanceId containerId : String) (quantity : PropVal) :
    KGraph × SvcResult :=
  let props := [("quantity", quantity),
                ("date_stored", PropVal.v (.str now)),
                ("created_at", PropVal.v (.str now))]
  let r := create_relationship g substanceId containerId "STORED_IN" props
  (r.1,
   if r.2 then
     { success := true, message := "Created storage relationship" }
   else
     { success := false, message := "Failed to create storage relationship" })

/-- `KnowledgeGraphService.create_compatibility_relationship`. -/
def create_compatibility_relationship (g : KGraph) (now : String)
    (s1 s2 : String) (isCompatible : Bool) (notes : String) :
    KGraph × SvcResult :=
  let relType := if isCompatible then "COMPATIBLE_WITH"
    else "INCOMPATIBLE_WITH"
  let props := [("notes", PropVal.v (.str notes)),
                ("created_at", PropVal.v (.str now))]
    ++ (if isCompatible then [("compatibility_level", PropVal.v (.str "safe"))]
        else [("incompatibility_reason", PropVal.v (.str notes))])
  let r := create_relationship g s1 s2 relType props
  (r.1,
   if r.2 then
     { success := true, message := "Created compatibility relationship" }
   else
     { success := false,
       message := "Failed to create compatibility relationship" })

/-! ## ontology/ontology_to_kg_pipeline.py — OntologyToKGPipeline

Steps 1–3 wrap the external rdflib / pyshacl libraries; the embedding
starts from their product, the `validated_triples` list, and mirrors
steps 4 and 5 and the `run_pipeline` control flow around them. -/

/-- One entry of `self.validated_triples`: an entity record
(`type`/`uri`/`data`) or a relationship record
(`type`/`source`/`target`/`properties`/`compatible`). -/
structure Triple where
  ttype : String
  uri : Option String := none
  tdata : Option (List (String × PyVal)) := none
  src : Option String := none
  tgt : Option String := none
  props : List (String × PyVal) := []
  compatible : Option Bool := none
  notes : Option String := none
deriving Repr

/-- `_assess_data_quality(self)`: completeness, accuracy and consistency
fractions over the validated triples. -/
def assess_data_quality (triples : List Triple) : ℚ × ℚ × ℚ :=
  if triples.isEmpty then (0, 0, 0)
  else
    let total := triples.length
    let complete := triples.countP fun t =>
      match t.tdata with
      | some d => !d.isEmpty && d.all fun p => p.2.truthy
      | none => false
    let accurate := triples.countP fun t =>
      t.ttype == "HazardousSubstance" || t.ttype == "Container"
    let consistent := triples.countP fun t =>
      (match t.uri with
       | some u => u != ""
       | none => false) && t.ttype != ""
    ((complete : ℚ) / total, (accurate : ℚ) / total, (consistent : ℚ) / total)

/-- `_check_compatibility(self)`: cross the substance and container
triples and flag corrosive × aluminum/carbon_steel pairs. -/
def check_compatibility_issues (triples : List Triple) : List String :=
  let substances := triples.filter fun t => t.ttype == "HazardousSubstance"
  let containers := triples.filter fun t => t.ttype == "Container"
  substances.flatMap fun s =>
    containers.filterMap fun c =>
      let sd := (s.tdata.getD [])
      let cd := (c.tdata.getD [])
      if sd.lookup "hazard_class" = some (.str "corrosive") ∧
          (cd.lookup "material" = some (.str "aluminum") ∨
           cd.lookup "material" = some (.str "carbon_steel")) then
        some "Incompatible: corrosive substance with incompatible container"
      else none

/-- Result record of `_step4_data_quality_check`. -/
structure Step4Result where
  success : Bool
  quality_score : ℚ
  completeness : ℚ
  accuracy : ℚ
  consistency : ℚ
  quality_issues : List String
  errors : List String
deriving Repr

/-- `_step4_data_quality_check(self)`: score the validated triples with
the 0.3/0.4/0.3 weighting and set `success` iff the score reaches the
0.7 minimum quality threshold. -/
def step4_data_quality_check (validatedTriples : List Triple) :
    Step4Result :=
  if validatedTriples.isEmpty then
    { success := false, quality_score := 0, completeness := 0,
      accuracy := 0, consistency := 0, quality_issues := [],
      errors := ["No validated triples to check"] }
  else
    let m := assess_data_quality validatedTriples
    let score := m.1 * (3 / 10) + m.2.1 * (4 / 10) + m.2.2 * (3 / 10)
    { success := decide (score ≥ 7 / 10), quality_score := score,
      completeness := m.1, accuracy := m.2.1, consistency := m.2.2,
      quality_issues := check_compatibility_issues validatedTriples,
      errors := [] }

/-- An entity record produced by `_convert_rdf_to_kg_format`. -/
structure KGEntityRec where
  etype : String
  edata : List (String × PyVal)
deriving Repr

/-- A relationship record produced by `_convert_rdf_to_kg_format`. -/
structure KGRelRec where
  rtype : String
  rsrc : String
  rtgt : String
  rprops : List (String × PyVal)
  rcompatible : Bool
  rnotes : String
deriving Repr

/-- The entity types recognised by `_convert_rdf_to_kg_format`. -/
def convertEntityTypes : List String :=
  ["HazardousSubstance", "Container", "SafetyTest", "RiskAssessment"]

/-- `_convert_rdf_to_kg_format(self)`: entities get a fresh uuid4 id and
timestamps; STORED_IN / COMPATIBLE_WITH triples become relationship
records. -/
def convert_rdf_to_kg_format (triples : List Triple) (cnt : ℕ)
    (now : String) : (List KGEntityRec × List KGRelRec) × ℕ :=
  triples.foldl
    (fun st t =>
      let ((ents, rels), c) := st
      if convertEntityTypes.contains t.ttype then
        let d := dictSet (dictSet (dictSet (t.tdata.getD [])
          "id" (.str (uuidStr c))) "created_at" (.str now))
          "updated_at" (.str now)
        ((ents ++ [⟨t.ttype, d⟩], rels), c + 1)
      else if t.ttype == "STORED_IN" || t.ttype == "COMPATIBLE_WITH" then
        ((ents, rels ++ [⟨t.ttype, t.src.getD "", t.tgt.getD "", t.props,
          t.compatible.getD true, t.notes.getD ""⟩]), c)
      else ((ents, rels), c))
    (([], []), cnt)

/-- Result record of `_step5_kg_storage`. -/
structure Step5Result where
  success : Bool
  entities_created : ℕ
  relationships_created : ℕ
  storage_errors : List String
  errors : List String
deriving Repr

/-- `_step5_kg_storage(self)`: convert and store every entity and
relationship, collecting per-item failures in `storage_errors`; the
STORED_IN call passes the properties dict as the `quantity` argument,
exactly as the source does. -/
def step5_kg_storage (validatedTriples : List Triple) (g : KGraph)
    (cnt : ℕ) (now : String) : Step5Result × KGraph × ℕ :=
  if validatedTriples.isEmpty then
    ({ success := false, entities_created := 0, relationships_created := 0,
       storage_errors := [], errors := ["No validated triples to store"] },
     g, cnt)
  else
    let conv := convert_rdf_to_kg_format validatedTriples cnt now
    let ents := conv.1.1
    let rels := conv.1.2
    let st1 := ents.foldl
      (fun st e =>
        let (g0, c0, k, es) := st
        let r :=
          if e.etype == "HazardousSubstance" then
            create_substance g0 c0 now e.edata
          else if e.etype == "Container" then
            create_container g0 c0 now e.edata
          else if e.etype == "SafetyTest" then
            create_test g0 c0 now e.edata
          else create_assessment g0 c0 now e.edata
        if r.2.2.success then (r.1, r.2.1, k + 1, es)
        else (r.1, r.2.1, k, es ++ [r.2.2.message]))
      (g, conv.2, (0 : ℕ), ([] : List String))
    let (g1, c1, entsCreated, errs1) := st1
    let st2 := rels.foldl
      (fun st r =>
        let (g0, k, es) := st
        let res :=
          if r.rtype == "STORED_IN" then
            create_storage_relationship g0 now r.rsrc r.rtgt
              (PropVal.map r.rprops)
          else
            create_compatibility_relationship g0 now r.rsrc r.rtgt
              r.rcompatible r.rnotes
        if res.2.success then (res.1, k + 1, es)
        else (res.1, k, es ++ [res.2.message]))
      (g1, (0 : ℕ), ([] : List String))
    let (g2, relsCreated, errs2) := st2
    ({ success := decide (entsCreated > 0) || decide (relsCreated > 0),
       entities_created := entsCreated,
       relationships_created := relsCreated,
       storage_errors := errs1 ++ errs2, errors := [] }, g2, c1)

/-- The fields of the `run_pipeline` result record that steps 4 and 5
fill in. -/
structure PipelineResults where
  step4_quality : Step4Result
  step5_storage : Step5Result
  quality_score : ℚ
  total_entities_created : ℕ
  total_relationships_created : ℕ
  overall_success : Bool
  errors : List String
deriving Repr

/-- The tail of `OntologyToKGPipeline.run_pipeline`, entered once steps
1–3 have succeeded and produced `validatedTriples`.  Mirrors the source
control flow: the step-4 result is recorded, and — unlike after steps
1–3, whose failure returns early — step 5 runs next without consulting
the step-4 success flag; the run then reports `overall_success = True`. -/
def run_pipeline_from_validated (validatedTriples : List Triple)
    (g : KGraph) (cnt : ℕ) (now : String) : PipelineResults × KGraph :=
  let q := step4_data_quality_check validatedTriples
  let s5 := step5_kg_storage validatedTriples g cnt now
  ({ step4_quality := q, step5_storage := s5.1,
     quality_score := q.quality_score,
     total_entities_created := s5.1.entities_created,
     total_relationships_created := s5.1.relationships_created,
     overall_success := true, errors := [] }, s5.2.1)

/-! ## nlp_rag/document_to_kg_pipeline.py — DocumentToKGPipeline

The entity/relation extractors and the spaCy text cleaning are external
to the statements settled here; the embedding covers document ingestion
(step 1), chunking and vector upsert (step 5) and the substance-node
part of graph merge (step 7), which the idempotence and chunk-count
statements are about. -/

/-- Modelled from the spec: `TextProcessor.create_chunks` — the module
`nlp_rag/information_extraction/text_processor.py` in the sources does
not define it — chunks text "into overlapping windows of configurable
size (default 1000 characters, overlap 200)" (§4.7): windows start at
0 and advance by `size − overlap`, and the window that reaches the end
of the text is the last.  Structured with fuel (one unit per emitted
window; `text.length + 1` suffices). -/
def create_chunks_aux (text : List Char) (size step : ℕ) :
    ℕ → ℕ → List (List Char)
  | 0, _ => []
  | fuel + 1, start =>
      let chunk := (text.drop start).take size
      if start + size < text.length then
        chunk :: create_chunks_aux text size step fuel (start + step)
      else [chunk]

/-- `create_chunks(text, chunk_size, overlap)` (see `create_chunks_aux`). -/
def create_chunks (text : String) (chunkSize overlap : ℕ) : List String :=
  (create_chunks_aux text.data chunkSize (chunkSize - overlap)
    (text.data.length + 1) 0).map List.asString

/-- The number of chunks step 5 produces for a text. -/
def numChunks (text : String) : ℕ :=
  (create_chunks text 1000 200).length

/-- A stored chunk record (text plus the metadata written in step 5). -/
structure ChunkRec where
  ctext : String
  meta_document_id : String
  meta_chunk_index : ℕ
  meta_doc_type : String
deriving DecidableEq, Repr

/-- The vector store contents, keyed by chunk identifier.  The source
renders the identifier as the string `f"{document_id}_chunk_{i}"`; it is
modelled as the pair (document_id, i), in which that rendering is
injective. -/
abbrev VectorStore := List ((String × ℕ) × ChunkRec)

/-- Modelled from the spec: `VectorStore.add_document`
(`nlp_rag/processors/vector_store.py` is not among the sources) upserts
by document id — "re-upsert replaces the prior record" (§4.10), batch
"upsert" (§4.3): an existing key is overwritten in place, a new key is
appended. -/
def vs_add_document (vs : VectorStore) (key : String × ℕ)
    (rec : ChunkRec) : VectorStore :=
  if vs.any (fun p => p.1 == key) then
    vs.map fun p => if p.1 == key then (key, rec) else p
  else vs ++ [(key, rec)]

/-- `_create_vector_embeddings(document_data)` (step 5): chunk the
processed text with chunk_size 1000 and overlap 200 and upsert each
chunk under `(document_id, chunk_index)` with the step-5 metadata.  The
`text` argument stands for the processed text handed to chunking. -/
def create_vector_embeddings (docId docType text : String)
    (vs : VectorStore) : VectorStore × ℕ :=
  let chunks := create_chunks text 1000 200
  (chunks.enum.foldl
    (fun acc ic =>
      vs_add_document acc (docId, ic.1) ⟨ic.2, docId, ic.1, docType⟩) vs,
   chunks.length)

/-- Injective stand-in for the MD5 hex digest of the content
(`hashlib.md5(content.encode()).hexdigest()` in
`DocumentProcessor._structure_document`). -/
def md5 (text : String) : String := "md5-" ++ text

/-- The document fields relevant here: the `id` assigned by
`_structure_document`, the `document_id` assigned by `_ingest_document`,
the content hash stored in metadata, and the document type. -/
structure DocumentData where
  id_struct : String
  document_id : String
  content_hash : String
  doc_type : String
deriving DecidableEq, Repr

/-- Step 1 (`_ingest_document` over `DocumentProcessor.process_document`):
`_structure_document` draws one uuid4 for `id` and computes the MD5
content hash into metadata; `_ingest_document` then draws a second
uuid4 for `document_id`.  Neither id depends on the content. -/
def ingest_document (text docType : String) (cnt : ℕ) :
    DocumentData × ℕ :=
  ({ id_struct := uuidStr cnt, document_id := uuidStr (cnt + 1),
     content_hash := md5 text, doc_type := docType }, cnt + 2)

/-- Python `s.startswith(pre)` on the character-list view. -/
def py_startswith (s pre : String) : Bool :=
  s.data.take pre.data.length == pre.data

/-- An extracted entity as step 7 consumes it. -/
structure DocEntity where
  etext : String
  entity_type : String
  formula : String := ""
  hazard_class : String := ""
  source_text : String := ""
deriving DecidableEq, Repr

/-- The substance-node part of `_store_in_knowledge_graph` (step 7):
each chemical entity becomes a `create_substance` call (name, formula,
hazard class, description truncated to 200 characters, source document);
hazard entities are only tracked in memory.  Returns the new graph, the
uuid counter and `nodes_created`. -/
def store_in_knowledge_graph (docId : String)
    (entities : List DocEntity) (g : KGraph) (cnt : ℕ) (now : String) :
    KGraph × ℕ × ℕ :=
  entities.foldl
    (fun st e =>
      let (g0, c0, k) := st
      if py_startswith e.entity_type "chemical" then
        let data := [("name", PyVal.str e.etext),
                     ("chemical_formula", PyVal.str e.formula),
                     ("hazard_class", PyVal.str e.hazard_class),
                     ("description", PyVal.str (e.source_text.take 200)),
                     ("source_document", PyVal.str docId)]
        let r := create_substance g0 c0 now data
        (r.1, r.2.1, if r.2.2.success then k + 1 else k)
      else (g0, c0, k))
    (g, cnt, 0)

/-- The pipeline state threaded through a run: the uuid counter, the
vector store and the graph store. -/
structure DocPipelineState where
  cnt : ℕ
  vs : VectorStore
  g : KGraph
deriving Repr

/-- One run of the Document→Graph pipeline on a document, restricted to
the stages the settled statements concern: step 1 ingestion (fresh
uuids, content hash), step 5 chunk upsert, step 7 substance-node merge
over the extracted `entities`.  Returns the document record, the chunk
count of this run, the nodes created, and the new state. -/
def run_document_pipeline (text docType : String)
    (entities : List DocEntity) (st : DocPipelineState) (now : String) :
    DocumentData × ℕ × ℕ × DocPipelineState :=
  let ing := ingest_document text docType st.cnt
  let doc := ing.1
  let ve := create_vector_embeddings doc.document_id docType text st.vs
  let kg := store_in_knowledge_graph doc.document_id entities st.g ing.2 now
  (doc, ve.2, kg.2.2, ⟨kg.2.1, ve.1, kg.1⟩)

/-! ## Concrete inputs used by the statements below -/

/-- A one-row substances batch with the given hazard class. -/
def substOneRow (h : String) : DataFrame :=
  ⟨[("name", [some (.str "X")]), ("hazard_class", [some (.str h)])]⟩

/-- A substances batch whose two rows share the name `X`. -/
def substDupNames : DataFrame :=
  ⟨[("name", [some (.str "X"), some (.str "X")]),
    ("hazard_class", [some (.str "flammable"), some (.str "toxic")])]⟩

/-- A validated-triples list: one fully populated substance entity and
one STORED_IN relationship, as step 3 would emit them. -/
def lowQualityTriples : List Triple :=
  [{ ttype := "HazardousSubstance", uri := some "u1",
     tdata := some [("name", PyVal.str "Acid"),
                    ("chemical_formula", PyVal.str "H2SO4"),
                    ("hazard_class", PyVal.str "corrosive")] },
   { ttype := "STORED_IN", src := some "su", tgt := some "cu" }]

/-- A graph holding one corrosive substance and one aluminum container —
a forbidden pair of the compatibility matrix. -/
def forbiddenPairGraph : KGraph :=
  ⟨[⟨["HazardousSubstance"],
     [("id", PyVal.str "s1"), ("hazard_class", PyVal.str "corrosive")]⟩,
    ⟨["Container"],
     [("id", PyVal.str "c1"), ("material", PyVal.str "aluminum")]⟩], []⟩

/-- A graph holding a single substance node with id `s1`. -/
def oneNodeGraph : KGraph :=
  ⟨[⟨["HazardousSubstance"], [("id", PyVal.str "s1")]⟩], []⟩

/-- The entity list for the document-pipeline runs: one chemical
entity. -/
def oneChemicalEntity : List DocEntity :=
  [{ etext := "sulfuric acid", entity_type := "chemical_name" }]

/-! ## Theorems -/

/-- C1: the claim reads: in every Ontology→Graph run whose step 4 scores
below 0.7, step 5 does not execute and zero entities are stored.  The
code records the step-4 failure but, unlike after steps 1–3, never
consults it: on a validated-triples list scoring 0.5 the run still
executes step 5, stores one entity and reports overall success. -/
theorem low_quality_run_still_stores_entities :
    (run_pipeline_from_validated lowQualityTriples emptyGraph 0 "t").1.quality_score
        = 1 / 2 ∧
    (run_pipeline_from_validated lowQualityTriples emptyGraph 0 "t").1.quality_score
        < 7 / 10 ∧
    (run_pipeline_from_validated lowQualityTriples emptyGraph 0 "t").1.step4_quality.success
        = false ∧
    (run_pipeline_from_validated lowQualityTriples emptyGraph 0 "t").1.total_entities_created
        = 1 ∧
    (run_pipeline_from_validated lowQualityTriples emptyGraph 0 "t").1.overall_success
        = true ∧
    (run_pipeline_from_validated lowQualityTriples emptyGraph 0 "t").2.nodes.length
        = 1 := by
  refine ⟨?_, ?_, ?_, by decide, rfl, by decide⟩ <;>
  · simp [run_pipeline_from_validated, step4_data_quality_check,
      assess_data_quality, lowQualityTriples, check_compatibility_issues,
      PyVal.truthy, List.countP, List.countP.go]
    norm_num

/-- C3 counterexample: a create-storage-relationship call for the
forbidden pair (corrosive, aluminum) is not rejected — it reports
success and adds a STORED_IN edge to the graph. -/
theorem storage_relationship_forbidden_pair_succeeds :
    ((create_storage_relationship forbiddenPairGraph "t" "s1" "c1"
        (PropVal.v (.num 1))).2.success = true) ∧
    ((create_storage_relationship forbiddenPairGraph "t" "s1" "c1"
        (PropVal.v (.num 1))).1.edges.length = 1) := by
  exact ⟨by decide, by decide⟩

/-- C3 (amended): `create_storage_relationship` consults no
compatibility table: for every graph and every substance/container id
pair it creates one STORED_IN edge per pair of nodes matching the two
ids — whatever their hazard class and material — succeeding exactly when
at least one pair matches, and never removes or changes nodes. -/
theorem storage_relationship_unconditional (g : KGraph)
    (now sid cid : String) (q : PropVal) :
    ((create_storage_relationship g now sid cid q).2.success = true ↔
      0 < (g.nodes.countP fun n => n.nodeId == some sid) *
          (g.nodes.countP fun n => n.nodeId == some cid)) ∧
    (create_storage_relationship g now sid cid q).1.edges.length =
      g.edges.length +
        (g.nodes.countP fun n => n.nodeId == some sid) *
        (g.nodes.countP fun n => n.nodeId == some cid) ∧
    (create_storage_relationship g now sid cid q).1.nodes = g.nodes := by
  refine ⟨?_, ?_, ?_⟩ <;>
    simp [create_storage_relationship, create_relationship,
      apply_ite SvcResult.success]

/-- C5 counterexample: the claim reads that a hazard_class value outside
the vocabulary contributes one error; the batch with hazard_class
`unknown_hazard` validates with no error at all. -/
theorem unknown_hazard_class_contributes_no_error :
    (validate_csv_structure (substOneRow "unknown_hazard") "substances").errors
        = [] ∧
    (validate_csv_structure (substOneRow "unknown_hazard") "substances").valid
        = true := by
  exact ⟨by decide, by decide⟩

/-- C7 counterexample: creating a node whose id already exists under the
same constrained label is not a no-op returning the existing id — the
unique-id constraint rejects it with `Conflict`. -/
theorem create_node_duplicate_id_conflicts :
    create_node oneNodeGraph ["HazardousSubstance"] [("id", PyVal.str "s1")]
      = .error "Conflict" ∧
    (Except.error "Conflict" : Except String (KGraph × Option String))
      ≠ Except.ok (oneNodeGraph, some "s1") := by
  exact ⟨rfl, fun h => Except.noConfusion h⟩

/-- C7 (amended): a second create-node call with an id already present
under a shared constrained label is rejected by the unique-id constraint
with `Conflict` — it is not a no-op returning the existing id, and no
second node is added because the call fails. -/
theorem create_node_existing_id_rejected (g : KGraph)
    (labels : List String) (props : List (String × PyVal))
    (n : KGNode) (l s : String)
    (hn : n ∈ g.nodes) (hl1 : l ∈ labels) (hl2 : l ∈ constrainedLabels)
    (hl3 : l ∈ n.labels)
    (hid : props.lookup "id" = some (.str s))
    (hnid : n.nodeId = some s) :
    create_node g labels props = .error "Conflict" := by
  have hconf : (g.nodes.any fun nd => labels.any fun ll =>
      constrainedLabels.contains ll && nd.labels.contains ll &&
        ((some s : Option String).isSome && nd.nodeId == some s)) = true := by
    rw [List.any_eq_true]
    refine ⟨n, hn, ?_⟩
    rw [List.any_eq_true]
    refine ⟨l, hl1, ?_⟩
    simp
    exact ⟨⟨hl2, hl3⟩, hnid⟩
  simp only [create_node, hid]
  rw [hconf]
  simp

/-- Witness for C7 (amended): the hypotheses hold and the conclusion
applies at the one-node graph with a duplicate `s1` id. -/
theorem create_node_existing_id_rejected_witness :
    ((⟨["HazardousSubstance"], [("id", PyVal.str "s1")]⟩ : KGNode)
        ∈ oneNodeGraph.nodes ∧
      "HazardousSubstance" ∈ (["HazardousSubstance"] : List String) ∧
      "HazardousSubstance" ∈ constrainedLabels ∧
      ([("id", PyVal.str "s1")] : List (String × PyVal)).lookup "id"
        = some (.str "s1")) ∧
    create_node oneNodeGraph ["HazardousSubstance"] [("id", PyVal.str "s1")]
      = .error "Conflict" :=
  ⟨⟨by decide, by decide, by decide, rfl⟩,
   create_node_existing_id_rejected oneNodeGraph ["HazardousSubstance"]
     [("id", PyVal.str "s1")]
     ⟨["HazardousSubstance"], [("id", PyVal.str "s1")]⟩
     "HazardousSubstance" "s1" (by decide) (by decide) (by decide)
     (by decide) rfl rfl⟩

/-- C9: the compatibility check returns `compatible = false` exactly for
the pairs of the fixed incompatibility table (corrosive with aluminum or
carbon steel, oxidizing with plastic, flammable with plastic), warns —
rather than errors — when the substance boiling point exceeds the
container temperature rating, and warns when the container pressure
rating is below 1. -/
theorem validate_compatibility_spec (s : SubstanceRec) (c : ContainerRec) :
    ((validate_compatibility s c).compatible = false ↔
      (s.hazard_class.getD "" = "corrosive" ∧
        (c.material.getD "" = "aluminum" ∨
         c.material.getD "" = "carbon_steel")) ∨
      (s.hazard_class.getD "" = "oxidizing" ∧
        c.material.getD "" = "plastic") ∨
      (s.hazard_class.getD "" = "flammable" ∧
        c.material.getD "" = "plastic")) ∧
    ("Substance boiling point exceeds container rating"
        ∈ (validate_compatibility s c).warnings ↔
      s.boiling_point.getD 0 > c.temperature_rating.getD 0) ∧
    ("Container pressure rating below atmospheric pressure"
        ∈ (validate_compatibility s c).warnings ↔
      c.pressure_rating.getD 0 < 1) := by
  refine ⟨?_, ?_, ?_⟩
  · simp only [validate_compatibility, incompatibilities, List.lookup]
    cases hb1 : s.hazard_class.getD "" == "corrosive" <;>
      cases hb2 : s.hazard_class.getD "" == "oxidizing" <;>
        cases hb3 : s.hazard_class.getD "" == "flammable" <;>
          simp_all <;> tauto
  · simp only [validate_compatibility]
    split_ifs <;> simp_all
  · simp only [validate_compatibility]
    split_ifs <;> simp_all

/-- C10: for a substance record whose hazard class is `flammable` and
whose flash point is a string (as the data model permits), the safety
validation does not raise: the failed numeric comparison is caught and
the call returns invalid with the single safety-validation-error message
and no warning — in particular the highly-flammable warning is not
emitted. -/
theorem safety_rules_string_flash_point (data : List (String × PyVal))
    (s : String)
    (h1 : data.lookup "hazard_class" = some (.str "flammable"))
    (h2 : data.lookup "flash_point" = some (.str s)) :
    validate_safety_rules data "substance" =
      { valid := false,
        errors :=
          ["Safety validation error: comparison not supported between str and int"],
        warnings := [] } := by
  simp only [validate_safety_rules, pyGetD, h1, h2]
  rfl

/-- Witness for C10: the hypotheses hold and the conclusion applies for
a flammable substance whose flash point is the string `<21C`. -/
theorem safety_rules_string_flash_point_witness :
    (([("hazard_class", PyVal.str "flammable"),
       ("flash_point", PyVal.str "<21C")] : List (String × PyVal)).lookup
        "hazard_class" = some (.str "flammable") ∧
     ([("hazard_class", PyVal.str "flammable"),
       ("flash_point", PyVal.str "<21C")] : List (String × PyVal)).lookup
        "flash_point" = some (.str "<21C")) ∧
    validate_safety_rules
      [("hazard_class", PyVal.str "flammable"),
       ("flash_point", PyVal.str "<21C")] "substance" =
      { valid := false,
        errors :=
          ["Safety validation error: comparison not supported between str and int"],
        warnings := [] } :=
  ⟨⟨rfl, rfl⟩,
   safety_rules_string_flash_point
     [("hazard_class", PyVal.str "flammable"),
      ("flash_point", PyVal.str "<21C")] "<21C" rfl rfl⟩

/-- C8: for every tabular batch and known entity kind, the CSV
validation result is valid exactly when its error list is empty, and the
warnings consist precisely of the duplicate-names message when a name
column has duplicates — duplicates are never errors and warnings never
affect validity. -/
theorem csv_valid_iff_no_errors (df : DataFrame) (dataType : String)
    (h : (validationRules.lookup dataType).isSome = true) :
    ((validate_csv_structure df dataType).valid = true ↔
      (validate_csv_structure df dataType).errors = []) ∧
    ((validate_csv_structure df dataType).warnings =
      if df.columns.contains "name" = true ∧
          (duplicatedVals (df.getcol "name")).isEmpty = false
      then ["Duplicate names found"] else []) := by
  obtain ⟨rules, hr⟩ := Option.isSome_iff_exists.mp h
  simp only [validate_csv_structure, hr]
  constructor
  · simp [List.isEmpty_iff]
  · split_ifs <;> simp_all

/-- Witness for C8: the hypothesis holds for the substances kind and the
conclusion applies on a batch with duplicate names. -/
theorem csv_valid_iff_no_errors_witness :
    (validationRules.lookup "substances").isSome = true ∧
    (((validate_csv_structure substDupNames "substances").valid = true ↔
      (validate_csv_structure substDupNames "substances").errors = []) ∧
     ((validate_csv_structure substDupNames "substances").warnings =
       if substDupNames.columns.contains "name" = true ∧
           (duplicatedVals (substDupNames.getcol "name")).isEmpty = false
       then ["Duplicate names found"] else [])) :=
  ⟨rfl, csv_valid_iff_no_errors substDupNames "substances" rfl⟩

/-- C5 (amended): batch validation applies no hazard-class vocabulary at
all — the `if field in rules` guard tests the keys of the rules dict, so
the vocabulary check is unreachable and every string hazard_class value
contributes no error (were it reachable, the table lists seven classes,
not twelve); the twelve-value vocabulary is enforced only by
`ValidationRules.is_valid_hazard_class`, case-insensitively, as used by
the Document→Graph entity validation. -/
theorem hazard_vocabulary_unreachable_in_batch (h : String) :
    ((validate_csv_structure (substOneRow h) "substances").errors = [] ∧
     (validate_csv_structure (substOneRow h) "substances").valid = true) ∧
    (is_valid_hazard_class h = true ↔
      (h.toLower = "flammable" ∨ h.toLower = "toxic" ∨
       h.toLower = "corrosive" ∨ h.toLower = "explosive" ∨
       h.toLower = "oxidizing" ∨ h.toLower = "environmental" ∨
       h.toLower = "health" ∨ h.toLower = "irritant" ∨
       h.toLower = "sensitizer" ∨ h.toLower = "carcinogen" ∨
       h.toLower = "mutagen" ∨ h.toLower = "reproductive_toxin")) := by
  refine ⟨?_, ?_⟩
  · simp [validate_csv_structure, validationRules, substancesRules,
      substOneRow, DataFrame.columns, DataFrame.getcol, DataFrame.nrows,
      validate_field_type, validate_constraints, validate_field_values,
      VRules.dictKeys, nonNull, pdToNumeric, List.lookup, charsInfix,
      duplicatedVals, duplicatedVals.go, cellBeq]
  · simp [is_valid_hazard_class, validHazardClassList]

/-- C4: the overall quality score equals (within 1e-9; here exactly)
0.25·completeness + 0.30·accuracy + 0.20·consistency + 0.15·timeliness
+ 0.10·uniqueness, and the letter grade is A iff score ≥ 0.9, B iff
0.8 ≤ score < 0.9, C iff 0.7 ≤ score < 0.8, D iff 0.6 ≤ score < 0.7,
and F otherwise. -/
theorem overall_quality_score_weighted (df : DataFrame)
    (tsCol : Option String) (now : ℚ) (ref : Option DataFrame) :
    |(calculate_overall_quality_score df tsCol now ref).overall_score -
      ((25 / 100) * calculate_completeness df +
       (30 / 100) * calculate_accuracy df ref +
       (20 / 100) * calculate_consistency df +
       (15 / 100) * calculate_timeliness df tsCol now +
       (10 / 100) * calculate_uniqueness df)| ≤ 1 / 1000000000 ∧
    (calculate_overall_quality_score df tsCol now ref).quality_grade
      = get_quality_grade
          (calculate_overall_quality_score df tsCol now ref).overall_score ∧
    (∀ q : ℚ,
      (get_quality_grade q = "A" ↔ 9 / 10 ≤ q) ∧
      (get_quality_grade q = "B" ↔ 8 / 10 ≤ q ∧ q < 9 / 10) ∧
      (get_quality_grade q = "C" ↔ 7 / 10 ≤ q ∧ q < 8 / 10) ∧
      (get_quality_grade q = "D" ↔ 6 / 10 ≤ q ∧ q < 7 / 10) ∧
      (get_quality_grade q = "F" ↔ q < 6 / 10)) := by
  refine ⟨?_, rfl, ?_⟩
  · have hs : (calculate_overall_quality_score df tsCol now ref).overall_score =
      ((25 / 100) * calculate_completeness df +
       (30 / 100) * calculate_accuracy df ref +
       (20 / 100) * calculate_consistency df +
       (15 / 100) * calculate_timeliness df tsCol now +
       (10 / 100) * calculate_uniqueness df) := by
      simp [calculate_overall_quality_score, qualityWeights]
      ring
    rw [hs, sub_self, abs_zero]
    norm_num
  · intro q
    unfold get_quality_grade
    split_ifs <;> refine ⟨?_, ?_, ?_, ?_, ?_⟩ <;> simp_all <;>
      intros <;> linarith


lemma create_chunks_aux_length (text : List Char) :
    ∀ (fuel start : ℕ),
      (text.length - (start + 1000) + 799) / 800 + 1 ≤ fuel →
      (create_chunks_aux text 1000 800 fuel start).length
        = (text.length - (start + 1000) + 799) / 800 + 1 := by
  intro fuel
  induction fuel with
  | zero => intro start h; omega
  | succ n ih =>
      intro start h
      simp only [create_chunks_aux]
      by_cases hlt : start + 1000 < text.length
      · rw [if_pos hlt]
        simp only [List.length_cons]
        rw [ih (start + 800) (by omega)]
        omega
      · rw [if_neg hlt]
        simp only [List.length_cons, List.length_nil]
        omega

def upsertChunksFold (docId docType : String) (cs : List (ℕ × String))
    (vs : VectorStore) : VectorStore :=
  cs.foldl (fun acc ic =>
    vs_add_document acc (docId, ic.1) ⟨ic.2, docId, ic.1, docType⟩) vs

lemma upsertChunksFold_spec (docId docType : String) :
    ∀ (cs : List String) (i0 : ℕ) (vs : VectorStore),
      (∀ p ∈ vs, p.1.1 ≠ docId ∨ p.1.2 < i0) →
      (upsertChunksFold docId docType (cs.enumFrom i0) vs).length
          = vs.length + cs.length ∧
      (∀ p ∈ upsertChunksFold docId docType (cs.enumFrom i0) vs,
        p ∈ vs ∨ p.1.1 = docId) ∧
      (∀ p ∈ upsertChunksFold docId docType (cs.enumFrom i0) vs,
        p.1.1 ≠ docId ∨ p.1.2 < i0 + cs.length) := by
  intro cs
  induction cs with
  | nil =>
      intro i0 vs hfresh
      refine ⟨by simp [upsertChunksFold], ?_, ?_⟩
      · intro p hp; exact Or.inl (by simpa [upsertChunksFold] using hp)
      · intro p hp
        rcases hfresh p (by simpa [upsertChunksFold] using hp) with h | h
        · exact Or.inl h
        · exact Or.inr (by omega)
  | cons c cs ih =>
      intro i0 vs hfresh
      have hstep : upsertChunksFold docId docType ((c :: cs).enumFrom i0) vs
          = upsertChunksFold docId docType (cs.enumFrom (i0 + 1))
              (vs ++ [((docId, i0), ⟨c, docId, i0, docType⟩)]) := by
        have hfresh2 : (vs.any fun p => p.1 == (docId, i0)) = false := by
          rw [List.any_eq_false]
          intro p hp
          rcases hfresh p hp with h | h <;>
            simp_all [Prod.ext_iff] <;> omega
        simp only [upsertChunksFold, List.enumFrom, List.foldl_cons]
        rw [vs_add_document, if_neg (by rw [hfresh2]; simp)]
      have hnext : ∀ p ∈ vs ++ [((docId, i0), (⟨c, docId, i0, docType⟩ : ChunkRec))],
          p.1.1 ≠ docId ∨ p.1.2 < i0 + 1 := by
        intro p hp
        rcases List.mem_append.mp hp with h | h
        · rcases hfresh p h with h2 | h2
          · exact Or.inl h2
          · exact Or.inr (by omega)
        · simp at h
          subst h
          refine Or.inr ?_
          show i0 < i0 + 1
          omega
      obtain ⟨ihlen, ihmem, ihinv⟩ := ih (i0 + 1) _ hnext
      refine ⟨?_, ?_, ?_⟩
      · rw [hstep, ihlen]
        simp
        omega
      · intro p hp
        rw [hstep] at hp
        rcases ihmem p hp with h | h
        · rcases List.mem_append.mp h with h2 | h2
          · exact Or.inl h2
          · simp at h2; subst h2; exact Or.inr rfl
        · exact Or.inr h
      · intro p hp
        rw [hstep] at hp
        rcases ihinv p hp with h | h
        · exact Or.inl h
        · refine Or.inr ?_
          simp only [List.length_cons]
          omega

/-- C6: chunking a string of length L with chunk size 1000 and overlap
200 produces ceil((L-200)/800) chunks when L > 200 and exactly one chunk
otherwise, and Document→Graph step 5 upserts exactly that many chunk
records into the vector store (shown on the empty store). -/
theorem chunk_count_formula (text docId docType : String) (vs : VectorStore) :
    numChunks text =
      (if 200 < text.length then (text.length - 200 + 799) / 800 else 1) ∧
    (create_vector_embeddings docId docType text vs).2 = numChunks text ∧
    (create_vector_embeddings docId docType text []).1.length
      = numChunks text := by
  refine ⟨?_, rfl, ?_⟩
  · unfold numChunks create_chunks
    rw [List.length_map]
    have h800 : (1000 - 200 : ℕ) = 800 := rfl
    rw [h800]
    rw [create_chunks_aux_length text.data (text.data.length + 1) 0 (by omega)]
    have hL : text.length = text.data.length := rfl
    by_cases h : 200 < text.length
    · rw [if_pos h]; omega
    · rw [if_neg h]; omega
  · have heq : (create_vector_embeddings docId docType text []).1
        = upsertChunksFold docId docType
            ((create_chunks text 1000 200).enumFrom 0) [] := rfl
    rw [heq]
    have := (upsertChunksFold_spec docId docType
      (create_chunks text 1000 200) 0 [] (by simp)).1
    simpa [numChunks] using this

def docRun1 (text : String) :=
  run_document_pipeline text "safety" oneChemicalEntity ⟨0, [], emptyGraph⟩ "t"

def docRun2 (text : String) :=
  run_document_pipeline text "safety" oneChemicalEntity (docRun1 text).2.2.2 "t"

def oneRunGraph : KGraph :=
  (store_in_knowledge_graph "uuid-1" oneChemicalEntity emptyGraph 2 "t").1

/-- C2 counterexample: the claim reads that two runs on the same
document yield the same MD5-derived id and no growth in chunk or node
counts; on an eleven-character document the two runs draw distinct
uuid4 document ids (the identical content hash sits unused in the
metadata), and both the chunk count and the substance-node count
double. -/
theorem document_rerun_not_idempotent :
    (docRun1 "hello world").1.document_id = "uuid-1" ∧
    (docRun2 "hello world").1.document_id = "uuid-4" ∧
    (docRun1 "hello world").1.document_id
      ≠ (docRun2 "hello world").1.document_id ∧
    (docRun1 "hello world").1.content_hash
      = (docRun2 "hello world").1.content_hash ∧
    (docRun1 "hello world").2.2.2.vs.length = 1 ∧
    (docRun2 "hello world").2.2.2.vs.length = 2 ∧
    (docRun1 "hello world").2.2.2.g.nodes.length = 1 ∧
    (docRun2 "hello world").2.2.2.g.nodes.length = 2 := by
  refine ⟨by decide, by decide, by decide, by decide, by decide, by decide,
    by decide, by decide⟩

lemma run_document_pipeline_fields (text docType : String)
    (ents : List DocEntity) (st : DocPipelineState) (now : String) :
    (run_document_pipeline text docType ents st now).1.document_id
        = uuidStr (st.cnt + 1) ∧
    (run_document_pipeline text docType ents st now).1.content_hash
        = md5 text ∧
    (run_document_pipeline text docType ents st now).2.2.2.vs
        = (create_vector_embeddings (uuidStr (st.cnt + 1)) docType text
            st.vs).1 ∧
    (run_document_pipeline text docType ents st now).2.2.2.g
        = (store_in_knowledge_graph (uuidStr (st.cnt + 1)) ents st.g
            (st.cnt + 2) now).1 :=
  ⟨rfl, rfl, rfl, rfl⟩

/-- C2 (amended): for every document content, re-running the pipeline
draws a fresh uuid4 document id (the MD5 content hash is computed into
metadata but never used as the id), so the second run upserts its
chunks under new keys — doubling the chunk count — and creates a second
substance node per chemical entity rather than replacing the first. -/
theorem document_rerun_fresh_ids (text : String) :
    (docRun1 text).1.document_id = "uuid-1" ∧
    (docRun2 text).1.document_id = "uuid-4" ∧
    (docRun1 text).1.document_id ≠ (docRun2 text).1.document_id ∧
    (docRun1 text).1.content_hash = (docRun2 text).1.content_hash ∧
    (docRun1 text).2.2.2.vs.length = numChunks text ∧
    (docRun2 text).2.2.2.vs.length = 2 * numChunks text ∧
    (docRun1 text).2.2.2.g.nodes.length = 1 ∧
    (docRun2 text).2.2.2.g.nodes.length = 2 := by
  have hcnt : (docRun1 text).2.2.2.cnt = 3 := rfl
  have hgr : (docRun1 text).2.2.2.g = oneRunGraph := rfl
  obtain ⟨hid2, hch2, hvs2, hg2⟩ := run_document_pipeline_fields text "safety"
    oneChemicalEntity (docRun1 text).2.2.2 "t"
  have hid2c : (docRun2 text).1.document_id = "uuid-4" := by
    rw [show (docRun2 text).1.document_id
        = uuidStr ((docRun1 text).2.2.2.cnt + 1) from hid2, hcnt]
    rfl
  have hvs1 : (docRun1 text).2.2.2.vs
      = upsertChunksFold "uuid-1" "safety"
          ((create_chunks text 1000 200).enumFrom 0) [] := rfl
  have h1 := upsertChunksFold_spec "uuid-1" "safety"
    (create_chunks text 1000 200) 0 [] (by simp)
  have hid1 : (docRun1 text).1.document_id = "uuid-1" := rfl
  refine ⟨hid1, hid2c, ?_, ?_, ?_, ?_, rfl, ?_⟩
  · rw [hid1, hid2c]
    decide
  · rw [show (docRun2 text).1.content_hash = md5 text from hch2]
    rfl
  · rw [hvs1]
    simpa [numChunks] using h1.1
  · have hfresh : ∀ p ∈ (docRun1 text).2.2.2.vs,
        p.1.1 ≠ uuidStr (3 + 1) ∨ p.1.2 < 0 := by
      intro p hp
      rw [hvs1] at hp
      rcases h1.2.1 p hp with h | h
      · simp at h
      · left
        rw [h]
        decide
    have h2 := (upsertChunksFold_spec (uuidStr (3 + 1)) "safety"
      (create_chunks text 1000 200) 0 ((docRun1 text).2.2.2.vs) hfresh).1
    have hup : (create_vector_embeddings (uuidStr (3 + 1)) "safety" text
        ((docRun1 text).2.2.2.vs)).1
        = upsertChunksFold (uuidStr (3 + 1)) "safety"
            ((create_chunks text 1000 200).enumFrom 0)
            ((docRun1 text).2.2.2.vs) := rfl
    rw [show (docRun2 text).2.2.2.vs
        = (create_vector_embeddings (uuidStr ((docRun1 text).2.2.2.cnt + 1))
            "safety" text ((docRun1 text).2.2.2.vs)).1 from hvs2, hcnt,
      hup, h2, hvs1, h1.1]
    simp [numChunks]
    ring
  · rw [show (docRun2 text).2.2.2.g
        = (store_in_knowledge_graph (uuidStr ((docRun1 text).2.2.2.cnt + 1))
            oneChemicalEntity ((docRun1 text).2.2.2.g)
            ((docRun1 text).2.2.2.cnt + 2) "t").1 from hg2, hcnt, hgr]
    decide

end HazardSafe
